import Mathlib

/-
Shallow embedding of the repository source:
  src/unnamed/part_000  (class ModernUIEngine: tiles, hit test, touch state, render)
  src/src/App.tsx       (App component: event wiring and coordinate scaling)

JavaScript numbers are modelled as rationals. Every quantity the claims
touch is either an integer or a small rational such as 800/7, and every
comparison the claims depend on holds with slack (the grid gap is 16), so
the rational model is faithful for these properties. The TypeScript
findIndex result -1 is modelled as the absent value of an Option, matching
the way the specification phrases it as "none".
-/

set_option maxRecDepth 4000

namespace ModernUI

/-- TouchPoint record from part_000 lines 1-5. -/
structure TouchPoint where
  x : ℚ
  y : ℚ
  pressure : ℚ
deriving DecidableEq, Repr

/-- Tile record from part_000 lines 7-14; the optional badge field. -/
structure Tile where
  x : ℚ
  y : ℚ
  width : ℚ
  height : ℚ
  label : String
  badge : Option String
deriving DecidableEq, Repr

/-- Fixed canvas width, part_000 line 17. -/
def canvasWidth : ℚ := 1024

/-- Fixed canvas height, part_000 line 18. -/
def canvasHeight : ℚ := 1024

/-- Grid constants of createTiles, part_000 lines 242-249. -/
def columns : ℕ := 7

def gridRows : ℕ := 3

def paddingX : ℚ := 64

def paddingY : ℚ := 280

def tileGap : ℚ := 16

def availableWidth : ℚ := canvasWidth - paddingX * 2

def tileWidth : ℚ := (availableWidth - tileGap * ((columns : ℚ) - 1)) / (columns : ℚ)

def tileHeight : ℚ := 110

/-- One tile of the grid, part_000 lines 254-263. The mutable counter of the
source starts at 1 and increments once per pushed tile, so the tile at
(row, col) is built with count = row * columns + col + 1. -/
def mkTile (row col : ℕ) : Tile :=
  let count : ℕ := row * columns + col + 1
  { x := paddingX + (col : ℚ) * (tileWidth + tileGap)
    y := paddingY + (row : ℚ) * (tileHeight + tileGap)
    width := tileWidth
    height := tileHeight
    label := "App " ++ toString count
    badge := if count % 5 = 0 then some "NEW" else none }

/-- createTiles, part_000 lines 240-269: row-major 3 by 7 grid of 21 tiles. -/
def createTiles : List Tile :=
  (List.range gridRows).flatMap (fun row =>
    (List.range columns).map (fun col => mkTile row col))

/-- The predicate of findTileIndex, part_000 line 273: inclusive bounds on
all four edges. -/
def tileContains (t : Tile) (x y : ℚ) : Bool :=
  decide (t.x ≤ x) && decide (x ≤ t.x + t.width) &&
  decide (t.y ≤ y) && decide (y ≤ t.y + t.height)

/-- Model of Array.prototype.findIndex: index of the first element
satisfying the predicate, none when no element does (the source returns -1
there, surfaced to the specification as "none"). -/
def findFirstIdx (p : α → Bool) : List α → Option ℕ
  | [] => none
  | a :: as => if p a then some 0 else (findFirstIdx p as).map (· + 1)

/-- findTileIndex, part_000 lines 271-275. -/
def findTileIndex (tiles : List Tile) (x y : ℚ) : Option ℕ :=
  findFirstIdx (fun t => tileContains t x y) tiles

/-- Mutable fields of ModernUIEngine, part_000 lines 19-25. The canvas and
context objects live outside the state; the draw calls made on the context
are modelled separately as an emitted command list. -/
structure EngineState where
  displayWidth : ℚ
  displayHeight : ℚ
  touch : Option TouchPoint
  activeTileIndex : Option ℕ
  tiles : List Tile
deriving DecidableEq, Repr

/-- Engine state right after the constructor, part_000 lines 19-37. -/
def initState : EngineState :=
  { displayWidth := 1024
    displayHeight := 1024
    touch := none
    activeTileIndex := none
    tiles := createTiles }

/-- handleTouchStart, part_000 lines 48-51. -/
def handleTouchStart (s : EngineState) (x y pressure : ℚ) : EngineState :=
  { s with touch := some ⟨x, y, pressure⟩
           activeTileIndex := findTileIndex s.tiles x y }

/-- handleTouchMove, part_000 lines 53-56 (same body as handleTouchStart). -/
def handleTouchMove (s : EngineState) (x y pressure : ℚ) : EngineState :=
  { s with touch := some ⟨x, y, pressure⟩
           activeTileIndex := findTileIndex s.tiles x y }

/-- handleTouchEnd, part_000 lines 58-61. -/
def handleTouchEnd (s : EngineState) : EngineState :=
  { s with touch := none, activeTileIndex := none }

/-- Pointer events reaching the engine: down and move carry scaled canvas
coordinates and a pressure, up carries nothing. -/
inductive PointerEvent where
  | down (x y pressure : ℚ)
  | move (x y pressure : ℚ)
  | up
deriving DecidableEq, Repr

/-- Dispatch of one pointer event to the engine handlers. -/
def step (s : EngineState) : PointerEvent → EngineState
  | .down x y p => handleTouchStart s x y p
  | .move x y p => handleTouchMove s x y p
  | .up => handleTouchEnd s

/-- The engine state after a sequence of pointer events from the initial
state. -/
def run (events : List PointerEvent) : EngineState :=
  events.foldl step initState

/-- A host touch point as delivered to the App component, App.tsx. -/
structure HostTouch where
  clientX : ℚ
  clientY : ℚ
deriving DecidableEq, Repr

/-- A host pointer event as the App move handler distinguishes them:
either a touch event carrying the list of active touches, or a mouse
event carrying client coordinates, App.tsx lines 88-118. -/
inductive HostPointerEvent where
  | touchEvt (touches : List HostTouch)
  | mouseEvt (clientX clientY : ℚ)
deriving DecidableEq, Repr

/-- handleTouchMove of the App component, App.tsx lines 88-118: a touch
event with no active touches returns without calling the engine; otherwise
the first touch (or the mouse position) is scaled from the bounding rect
into canvas space and forwarded with pressure 0.8. -/
def appHandleTouchMove (rectLeft rectTop rectWidth rectHeight : ℚ)
    (e : HostPointerEvent) (s : EngineState) : EngineState :=
  match e with
  | .touchEvt [] => s
  | .touchEvt (t :: _) =>
      handleTouchMove s ((t.clientX - rectLeft) * (canvasWidth / rectWidth))
        ((t.clientY - rectTop) * (canvasHeight / rectHeight)) (4 / 5)
  | .mouseEvt cx cy =>
      handleTouchMove s ((cx - rectLeft) * (canvasWidth / rectWidth))
        ((cy - rectTop) * (canvasHeight / rectHeight)) (4 / 5)

/-- The 2D context handle the engine constructor requests; its identity is
irrelevant to the engine, part_000 line 31. -/
structure CanvasContext where
  id : ℕ
deriving DecidableEq, Repr

/-- A constructed engine: the stored context plus the mutable state. -/
structure Engine where
  ctx : CanvasContext
  state : EngineState
deriving DecidableEq, Repr

/-- Constructor, part_000 lines 27-37: when getContext yields no 2D
context the constructor throws "Canvas context unavailable"; otherwise the
engine is built with the fixed tile grid and empty touch state. -/
def constructEngine : Option CanvasContext → Except String Engine
  | none => Except.error "Canvas context unavailable"
  | some c => Except.ok { ctx := c, state := initState }

/-- One primitive call on the 2D context. Each method call or property
assignment the drawing code performs becomes one command, in program
order. The two angle arguments of arc are recorded as multiples of pi
(the source passes 0 and Math.PI * 2). -/
inductive DrawCmd where
  | setFillColor (color : String)
  | setFillLinearGradient (x0 y0 x1 y1 : ℚ) (stops : List (ℚ × String))
  | setFillRadialGradient (x0 y0 r0 x1 y1 r1 : ℚ) (stops : List (ℚ × String))
  | setStrokeColor (color : String)
  | setLineWidth (w : ℚ)
  | setFont (font : String)
  | setGlobalAlpha (a : ℚ)
  | setShadowColor (color : String)
  | setShadowBlur (b : ℚ)
  | fillRect (x y w h : ℚ)
  | strokeRect (x y w h : ℚ)
  | fillText (text : String) (x y : ℚ)
  | save
  | restore
  | beginPath
  | closePath
  | moveTo (x y : ℚ)
  | arcTo (x1 y1 x2 y2 r : ℚ)
  | arc (x y r a0 a1 : ℚ)
  | fill
  | getImageData (x y w h : ℚ)
deriving DecidableEq, Repr

/-- drawRoundedRect, part_000 lines 277-287. -/
def drawRoundedRect (x y w h radius : ℚ) (fillColor : String) : List DrawCmd :=
  [.beginPath, .moveTo (x + radius) y,
   .arcTo (x + w) y (x + w) (y + h) radius,
   .arcTo (x + w) (y + h) x (y + h) radius,
   .arcTo x (y + h) x y radius,
   .arcTo x y (x + w) y radius,
   .closePath, .setFillColor fillColor, .fill]

/-- drawCapsule, part_000 lines 289-292. -/
def drawCapsule (x y w h : ℚ) (fillColor : String) : List DrawCmd :=
  drawRoundedRect x y w h (h / 2) fillColor

/-- drawBackground, part_000 lines 74-92. The first loop runs y over
120, 200, ..., 1000 (the 12 multiples of 80 shifted by 120 that stay
below 1024); the second runs x over 64, 144, ..., 944 (likewise 12
values below 1024). -/
def drawBackgroundCmds : List DrawCmd :=
  [.setFillLinearGradient 0 0 canvasWidth canvasHeight
     [(0, "#050816"), (1 / 2, "#0f172a"), (1, "#111827")],
   .fillRect 0 0 canvasWidth canvasHeight,
   .save, .setGlobalAlpha (1 / 2), .setFillColor "#1e293b"]
  ++ (List.range 12).map (fun k => .fillRect 0 (120 + 80 * (k : ℚ)) canvasWidth 1)
  ++ (List.range 12).map (fun k => .fillRect (64 + 80 * (k : ℚ)) 120 1 (canvasHeight - 200))
  ++ [.restore]

/-- drawHeader, part_000 lines 94-113 (capsuleX = 1024 - 300 = 724). -/
def drawHeaderCmds : List DrawCmd :=
  [.save, .setFillColor "#0b1120", .fillRect 0 0 canvasWidth 120,
   .setFillColor "#f8fafc", .setFont "bold 32px Inter, sans-serif",
   .fillText "PPU-AQC Unified Platform" 64 60,
   .setFillColor "#94a3b8", .setFont "16px Inter, sans-serif",
   .fillText "Operational readiness · 21 applications · 4K mode" 64 90]
  ++ drawCapsule 724 38 220 44 "#1d4ed8"
  ++ [.setFillColor "#e2e8f0", .setFont "600 15px Inter, sans-serif",
      .fillText "Systems nominal" (724 + 24) 66,
      .restore]

/-- The three fixed status cards, part_000 lines 123-127, as
(title, value, subtitle, accent). -/
def statusCards : List (String × String × String × String) :=
  [("Power", "98%", "Stable output", "#22c55e"),
   ("Cooling", "72°F", "Nominal range", "#38bdf8"),
   ("Security", "Secure", "All zones green", "#a855f7")]

/-- Body of the forEach of drawStatusCards, part_000 lines 129-148, for
the card at the given index. -/
def statusCardCmds (index : ℕ) (card : String × String × String × String) : List DrawCmd :=
  let x : ℚ := 64 + (index : ℚ) * (280 + 24)
  let y : ℚ := 140
  drawRoundedRect x y 280 110 20 "#0f172a"
  ++ [.setStrokeColor "#1e293b", .setLineWidth 2, .strokeRect x y 280 110,
      .setFillColor "#94a3b8", .setFont "14px Inter, sans-serif",
      .fillText card.1 (x + 20) (y + 30),
      .setFillColor "#f8fafc", .setFont "600 28px Inter, sans-serif",
      .fillText card.2.1 (x + 20) (y + 62),
      .setFillColor card.2.2.2, .setFont "12px Inter, sans-serif",
      .fillText card.2.2.1 (x + 20) (y + 88)]

/-- drawStatusCards, part_000 lines 116-149. -/
def drawStatusCardsCmds : List DrawCmd :=
  statusCards.enum.flatMap (fun p => statusCardCmds p.1 p.2)

/-- Body of the forEach of drawTiles, part_000 lines 152-183, for the
tile at the given index. -/
def tileCmds (activeTileIndex : Option ℕ) (index : ℕ) (tile : Tile) : List DrawCmd :=
  let isActive : Bool := activeTileIndex == some index
  let baseColor := if isActive then "#1d4ed8" else "#111827"
  let glowColor := if isActive then "rgba(59, 130, 246, 0.35)" else "rgba(15, 23, 42, 0.6)"
  [.save, .setShadowColor glowColor, .setShadowBlur (if isActive then 22 else 8)]
  ++ drawRoundedRect tile.x tile.y tile.width tile.height 18 baseColor
  ++ [.setShadowBlur 0,
      .setStrokeColor (if isActive then "#93c5fd" else "#1f2937"),
      .setLineWidth 2, .strokeRect tile.x tile.y tile.width tile.height,
      .setFillColor "#e2e8f0", .setFont "600 16px Inter, sans-serif",
      .fillText tile.label (tile.x + 16) (tile.y + 32),
      .setFillColor "#64748b", .setFont "12px Inter, sans-serif",
      .fillText "Ready" (tile.x + 16) (tile.y + 56)]
  ++ (match tile.badge with
      | none => []
      | some b =>
          drawCapsule (tile.x + tile.width - 88) (tile.y + 18) 72 26 "#0f172a"
          ++ [.setFillColor "#38bdf8", .setFont "600 12px Inter, sans-serif",
              .fillText b (tile.x + tile.width - 72) (tile.y + 36)])
  ++ [.restore]

/-- drawTiles, part_000 lines 151-184. -/
def drawTilesCmds (activeTileIndex : Option ℕ) (tiles : List Tile) : List DrawCmd :=
  tiles.enum.flatMap (fun p => tileCmds activeTileIndex p.1 p.2)

/-- The keyboard key labels, part_000 lines 196-200. -/
def keyboardRows : List (List String) :=
  [["ESC", "F1", "F2", "F3", "F4", "F5", "F6", "F7", "F8"],
   ["TAB", "Q", "W", "E", "R", "T", "Y", "U", "I", "O", "P"],
   ["CTRL", "A", "S", "D", "F", "G", "H", "J", "K", "L", "ENTER"]]

/-- Inner forEach of drawKeyboard, part_000 lines 211-219: draws the keys
of one row left to right, advancing x by keyWidth + keyGap. -/
def keyRowCmds (y keyWidth : ℚ) : ℚ → List String → List DrawCmd
  | _, [] => []
  | x, key :: rest =>
      drawRoundedRect x y keyWidth 38 12 "#111827"
      ++ [.setStrokeColor "#1f2937", .strokeRect x y keyWidth 38,
          .setFillColor "#94a3b8", .setFont "12px Inter, sans-serif",
          .fillText key (x + 12) (y + 24)]
      ++ keyRowCmds y keyWidth (x + keyWidth + 10) rest

/-- drawKeyboard, part_000 lines 186-223: startY = 1024 - 180 - 32 = 812,
the row at index i starts at y = startY + 20 + i * (38 + 12), and each
row computes its key width from the remaining width after the 10-unit
gaps. -/
def drawKeyboardCmds : List DrawCmd :=
  drawRoundedRect 64 (canvasHeight - 180 - 32) (canvasWidth - 64 * 2) 180 24 "#0b1120"
  ++ [.setStrokeColor "#1e293b", .setLineWidth 2,
      .strokeRect 64 (canvasHeight - 180 - 32) (canvasWidth - 64 * 2) 180]
  ++ keyboardRows.enum.flatMap (fun p =>
      let row := p.2
      let totalKeyWidth : ℚ := canvasWidth - 64 * 2 - 10 * ((row.length : ℚ) - 1)
      keyRowCmds (canvasHeight - 180 - 32 + 20 + (p.1 : ℚ) * 50)
        (totalKeyWidth / (row.length : ℚ)) 64 row)

/-- drawTouchHighlight, part_000 lines 225-238: nothing when no touch is
stored, otherwise the radial glow centred on the touch point. -/
def drawTouchHighlightCmds (touch : Option TouchPoint) : List DrawCmd :=
  match touch with
  | none => []
  | some t =>
      [.save, .setGlobalAlpha (4 / 10),
       .setFillRadialGradient t.x t.y 10 t.x t.y 80 [(0, "#60a5fa"), (1, "transparent")],
       .beginPath, .arc t.x t.y 80 0 2, .fill, .restore]

/-- The full command sequence one render call emits, part_000 lines
63-72: the six layers in order, then the getImageData readback. It reads
only activeTileIndex, touch and tiles. -/
def renderCommands (s : EngineState) : List DrawCmd :=
  drawBackgroundCmds ++ drawHeaderCmds ++ drawStatusCardsCmds
  ++ drawTilesCmds s.activeTileIndex s.tiles
  ++ drawKeyboardCmds
  ++ drawTouchHighlightCmds s.touch
  ++ [.getImageData 0 0 canvasWidth canvasHeight]

/-- render as a state transformer: the body of render and of every draw
helper only calls context operations and assigns no engine field, so the
engine state component is returned unchanged next to the emitted
commands. -/
def renderStep (s : EngineState) : EngineState × List DrawCmd :=
  (s, renderCommands s)

/-- Recognises the radial-gradient fill, emitted only by
drawTouchHighlight (every other fill is a colour or the background
linear gradient). -/
def isRadialGradientCmd : DrawCmd → Bool
  | .setFillRadialGradient _ _ _ _ _ _ _ => true
  | _ => false

/-! Supporting lemmas. -/

theorem tileWidth_eq : tileWidth = 800 / 7 := by
  norm_num [tileWidth, availableWidth, canvasWidth, paddingX, tileGap, columns]

theorem mkTile_x (r c : ℕ) : (mkTile r c).x = 64 + (c : ℚ) * (912 / 7) := by
  simp only [mkTile, paddingX, tileGap, tileWidth_eq]
  norm_num

theorem mkTile_y (r c : ℕ) : (mkTile r c).y = 280 + (r : ℚ) * 126 := by
  simp only [mkTile, paddingY, tileGap, tileHeight]
  norm_num

theorem mkTile_width (r c : ℕ) : (mkTile r c).width = 800 / 7 := tileWidth_eq

theorem mkTile_height (r c : ℕ) : (mkTile r c).height = 110 := rfl

theorem mkTile_badge (r c : ℕ) :
    (mkTile r c).badge =
      if (r * columns + c + 1) % 5 = 0 then some "NEW" else none := rfl

theorem tileContains_iff (t : Tile) (x y : ℚ) :
    tileContains t x y = true ↔
      t.x ≤ x ∧ x ≤ t.x + t.width ∧ t.y ≤ y ∧ y ≤ t.y + t.height := by
  simp [tileContains, and_assoc]

theorem createTiles_length : createTiles.length = 21 := rfl

theorem mem_createTiles_iff (t : Tile) :
    t ∈ createTiles ↔ ∃ r, r < 3 ∧ ∃ c, c < 7 ∧ mkTile r c = t := by
  simp [createTiles, List.mem_flatMap, List.mem_map, List.mem_range, gridRows, columns]

theorem createTiles_get (i : ℕ) (h : i < createTiles.length) :
    createTiles.get ⟨i, h⟩ = mkTile (i / 7) (i % 7) := by
  rw [createTiles_length] at h
  interval_cases i <;> rfl

/-- Tiles in distinct columns are separated horizontally by the 16-unit
gap: the right edge of the earlier column lies strictly left of the later
column. -/
theorem col_separation {c c' : ℕ} (h : c < c') (r r' : ℕ) :
    (mkTile r c).x + (mkTile r c).width < (mkTile r' c').x := by
  rw [mkTile_x, mkTile_width, mkTile_x]
  have hcc : (c : ℚ) + 1 ≤ (c' : ℚ) := by exact_mod_cast h
  have hm := mul_le_mul_of_nonneg_right hcc (show (0 : ℚ) ≤ 912 / 7 by norm_num)
  linarith

/-- Tiles in distinct rows are separated vertically by the 16-unit gap. -/
theorem row_separation {r r' : ℕ} (h : r < r') (c c' : ℕ) :
    (mkTile r c).y + (mkTile r c).height < (mkTile r' c').y := by
  rw [mkTile_y, mkTile_height, mkTile_y]
  have hrr : (r : ℚ) + 1 ≤ (r' : ℚ) := by exact_mod_cast h
  have hm := mul_le_mul_of_nonneg_right hrr (show (0 : ℚ) ≤ 126 by norm_num)
  linarith

/-- Two grid cells with different (row, column) share no point, even on
their closed boundaries. -/
theorem mkTile_no_common_point {r c r' c' : ℕ} (hne : r ≠ r' ∨ c ≠ c') (x y : ℚ)
    (h1 : tileContains (mkTile r c) x y = true)
    (h2 : tileContains (mkTile r' c') x y = true) : False := by
  rw [tileContains_iff] at h1 h2
  obtain ⟨a1, a2, a3, a4⟩ := h1
  obtain ⟨b1, b2, b3, b4⟩ := h2
  rcases hne with hr | hc
  · rcases Nat.lt_or_ge r r' with hlt | hge
    · have := row_separation hlt c c'
      linarith
    · have hlt : r' < r := lt_of_le_of_ne hge (Ne.symm hr)
      have := row_separation hlt c' c
      linarith
  · rcases Nat.lt_or_ge c c' with hlt | hge
    · have := col_separation hlt r r'
      linarith
    · have hlt : c' < c := lt_of_le_of_ne hge (Ne.symm hc)
      have := col_separation hlt r' r
      linarith

/-- Every grid cell lies inside the 1024 by 1024 canvas. -/
theorem mkTile_in_canvas {r c : ℕ} (hr : r < 3) (hc : c < 7) :
    0 ≤ (mkTile r c).x ∧ (mkTile r c).x + (mkTile r c).width ≤ 1024 ∧
    0 ≤ (mkTile r c).y ∧ (mkTile r c).y + (mkTile r c).height ≤ 1024 := by
  rw [mkTile_x, mkTile_width, mkTile_y, mkTile_height]
  have hc6 : (c : ℚ) ≤ 6 := by exact_mod_cast Nat.lt_succ_iff.mp hc
  have hr2 : (r : ℚ) ≤ 2 := by exact_mod_cast Nat.lt_succ_iff.mp hr
  have hc0 : (0 : ℚ) ≤ (c : ℚ) := Nat.cast_nonneg c
  have hr0 : (0 : ℚ) ≤ (r : ℚ) := Nat.cast_nonneg r
  have hmc := mul_le_mul_of_nonneg_right hc6 (show (0 : ℚ) ≤ 912 / 7 by norm_num)
  have hmc0 := mul_nonneg hc0 (show (0 : ℚ) ≤ 912 / 7 by norm_num)
  have hmr := mul_le_mul_of_nonneg_right hr2 (show (0 : ℚ) ≤ 126 by norm_num)
  have hmr0 := mul_nonneg hr0 (show (0 : ℚ) ≤ 126 by norm_num)
  refine ⟨by linarith, by linarith, by linarith, by linarith⟩

theorem findFirstIdx_eq_none_iff (p : α → Bool) (l : List α) :
    findFirstIdx p l = none ↔ ∀ a ∈ l, p a = false := by
  induction l with
  | nil => simp [findFirstIdx]
  | cons a as ih =>
      cases hpa : p a with
      | true => simp [findFirstIdx, hpa]
      | false => simp [findFirstIdx, hpa, ih]

theorem findFirstIdx_eq_some (p : α → Bool) :
    ∀ (l : List α) (i : ℕ), findFirstIdx p l = some i →
      ∃ h : i < l.length, p (l.get ⟨i, h⟩) = true ∧
        ∀ j, j < i → ∀ hj : j < l.length, p (l.get ⟨j, hj⟩) = false := by
  intro l
  induction l with
  | nil => intro i h; simp [findFirstIdx] at h
  | cons a as ih =>
      intro i h
      cases hpa : p a with
      | true =>
          simp [findFirstIdx, hpa] at h
          obtain rfl : i = 0 := by omega
          exact ⟨Nat.succ_pos _, hpa, fun j hj _ => absurd hj (Nat.not_lt_zero j)⟩
      | false =>
          simp [findFirstIdx, hpa] at h
          obtain ⟨i0, hi0, rfl⟩ := h
          obtain ⟨hlen, hget, hbefore⟩ := ih i0 hi0
          refine ⟨Nat.succ_lt_succ hlen, hget, ?_⟩
          intro j hj hjlen
          cases j with
          | zero => exact hpa
          | succ j0 =>
              exact hbefore j0 (Nat.lt_of_succ_lt_succ hj) (Nat.lt_of_succ_lt_succ hjlen)

theorem createTiles_eq :
    createTiles =
      [mkTile 0 0, mkTile 0 1, mkTile 0 2, mkTile 0 3, mkTile 0 4, mkTile 0 5, mkTile 0 6,
       mkTile 1 0, mkTile 1 1, mkTile 1 2, mkTile 1 3, mkTile 1 4, mkTile 1 5, mkTile 1 6,
       mkTile 2 0, mkTile 2 1, mkTile 2 2, mkTile 2 3, mkTile 2 4, mkTile 2 5, mkTile 2 6] :=
  rfl

theorem not_contains_of_lt_left (t : Tile) (x y : ℚ) (h : x < t.x) :
    tileContains t x y = false := by
  rw [Bool.eq_false_iff]
  intro hc
  rw [tileContains_iff] at hc
  linarith [hc.1]

theorem not_contains_of_right_lt (t : Tile) (x y : ℚ) (h : t.x + t.width < x) :
    tileContains t x y = false := by
  rw [Bool.eq_false_iff]
  intro hc
  rw [tileContains_iff] at hc
  linarith [hc.2.1]

theorem tile_x_lower (r c : ℕ) : 64 ≤ (mkTile r c).x := by
  rw [mkTile_x]
  have := mul_nonneg (Nat.cast_nonneg (α := ℚ) c) (show (0 : ℚ) ≤ 912 / 7 by norm_num)
  linarith

/-- The point (500, 300) lies strictly inside the column-3 cell of row 0
and strictly to the right of columns 0 to 2. -/
theorem contains_500_300 :
    tileContains (mkTile 0 0) 500 300 = false ∧
    tileContains (mkTile 0 1) 500 300 = false ∧
    tileContains (mkTile 0 2) 500 300 = false ∧
    tileContains (mkTile 0 3) 500 300 = true := by
  refine ⟨?_, ?_, ?_, ?_⟩
  · apply not_contains_of_right_lt
    rw [mkTile_x, mkTile_width]
    norm_num
  · apply not_contains_of_right_lt
    rw [mkTile_x, mkTile_width]
    norm_num
  · apply not_contains_of_right_lt
    rw [mkTile_x, mkTile_width]
    norm_num
  · rw [tileContains_iff, mkTile_x, mkTile_width, mkTile_y, mkTile_height]
    norm_num

theorem findTileIndex_500_300 : findTileIndex createTiles 500 300 = some 3 := by
  obtain ⟨h0, h1, h2, h3⟩ := contains_500_300
  rw [findTileIndex, createTiles_eq]
  simp [findFirstIdx, h0, h1, h2, h3]

theorem findTileIndex_0_0 : findTileIndex createTiles 0 0 = none := by
  rw [findTileIndex, findFirstIdx_eq_none_iff]
  intro t ht
  obtain ⟨r, _, c, _, rfl⟩ := (mem_createTiles_iff t).mp ht
  exact not_contains_of_lt_left _ _ _ (lt_of_lt_of_le (by norm_num) (tile_x_lower r c))

theorem any_flatMap (p : β → Bool) (f : α → List β) :
    ∀ l : List α, (l.flatMap f).any p = l.any (fun x => (f x).any p) := by
  intro l
  induction l with
  | nil => rfl
  | cons a as ih => simp [List.flatMap_cons, List.any_append, ih]

theorem tileCmds_no_radial (a : Option ℕ) (i : ℕ) (t : Tile) :
    (tileCmds a i t).any isRadialGradientCmd = false := by
  cases hb : t.badge with
  | none =>
      simp only [tileCmds, hb]
      rfl
  | some b =>
      simp only [tileCmds, hb]
      rfl

theorem drawTiles_no_radial (a : Option ℕ) (tiles : List Tile) :
    (drawTilesCmds a tiles).any isRadialGradientCmd = false := by
  rw [drawTilesCmds, any_flatMap]
  rw [List.any_eq_false]
  intro pr _
  exact Bool.eq_false_iff.mp (tileCmds_no_radial a pr.1 pr.2)

/-- The consistency property of the tracker state: activeTileIndex is the
hit-test result for the stored sample, or absent when no sample is
stored. -/
def trackerInvariant (s : EngineState) : Prop :=
  s.activeTileIndex = s.touch.bind (fun t => findTileIndex s.tiles t.x t.y)

theorem step_trackerInvariant (s : EngineState) (e : PointerEvent) :
    trackerInvariant (step s e) := by
  cases e <;> rfl

theorem foldl_trackerInvariant :
    ∀ (es : List PointerEvent) (s : EngineState),
      trackerInvariant s → trackerInvariant (es.foldl step s)
  | [], _, h => h
  | e :: es, s, _ => foldl_trackerInvariant es (step s e) (step_trackerInvariant s e)

/-! Claim theorems. -/

/-- Claim C1: findTileIndex returns the index of the first tile in
creation order whose rectangle contains the point under inclusive bounds
on all four edges, and none when no tile contains the point; every
out-of-canvas coordinate matches no tile, and a containing tile index is
unique because the rectangles do not overlap. -/
theorem hitTest_first_match :
    ∀ x y : ℚ,
      (∀ i, findTileIndex createTiles x y = some i →
        ∃ h : i < createTiles.length,
          tileContains (createTiles.get ⟨i, h⟩) x y = true ∧
          ∀ j (hj : j < createTiles.length), j < i →
            tileContains (createTiles.get ⟨j, hj⟩) x y = false) ∧
      (findTileIndex createTiles x y = none ↔
        ∀ t ∈ createTiles, tileContains t x y = false) ∧
      ((x < 0 ∨ 1024 < x ∨ y < 0 ∨ 1024 < y) → findTileIndex createTiles x y = none) ∧
      (∀ i j (hi : i < createTiles.length) (hj : j < createTiles.length),
        tileContains (createTiles.get ⟨i, hi⟩) x y = true →
        tileContains (createTiles.get ⟨j, hj⟩) x y = true → i = j) := by
  intro x y
  refine ⟨?_, findFirstIdx_eq_none_iff _ _, ?_, ?_⟩
  · intro i h
    obtain ⟨hlen, hget, hbefore⟩ := findFirstIdx_eq_some _ _ _ h
    exact ⟨hlen, hget, fun j hj hji => hbefore j hji hj⟩
  · intro hout
    rw [findTileIndex, findFirstIdx_eq_none_iff]
    intro t ht
    obtain ⟨r, hr, c, hc, rfl⟩ := (mem_createTiles_iff t).mp ht
    rw [Bool.eq_false_iff]
    intro hct
    rw [tileContains_iff] at hct
    obtain ⟨hx0, hx1024, hy0, hy1024⟩ := mkTile_in_canvas hr hc
    obtain ⟨a1, a2, a3, a4⟩ := hct
    rcases hout with h | h | h | h <;> linarith
  · intro i j hi hj hci hcj
    by_contra hne
    rw [createTiles_get i hi] at hci
    rw [createTiles_get j hj] at hcj
    exact mkTile_no_common_point (by omega) x y hci hcj

/-- Witness for C1: the out-of-canvas coordinate (-5, 500) matches no
tile. -/
theorem hitTest_first_match_witness :
    findTileIndex createTiles (-5) 500 = none :=
  (hitTest_first_match (-5) 500).2.2.1 (Or.inl (by norm_num))

/-- Claim C2: after every event sequence from the initial state,
activeTileIndex is the first-match hit test of the current sample (empty
when no sample exists or no tile contains it); pointer-down at (500, 300),
a point strictly inside tile 3, selects index 3, and a subsequent move to
(0, 0), outside all tiles, clears the index while the sample remains
present. -/
theorem tracker_consistency :
    (∀ events : List PointerEvent, trackerInvariant (run events)) ∧
    createTiles.get? 3 = some (mkTile 0 3) ∧
    ((mkTile 0 3).x < 500 ∧ 500 < (mkTile 0 3).x + (mkTile 0 3).width ∧
      (mkTile 0 3).y < 300 ∧ 300 < (mkTile 0 3).y + (mkTile 0 3).height) ∧
    (run [PointerEvent.down 500 300 1]).activeTileIndex = some 3 ∧
    (run [PointerEvent.down 500 300 1, PointerEvent.move 0 0 (4 / 5)]).activeTileIndex
      = none ∧
    (run [PointerEvent.down 500 300 1, PointerEvent.move 0 0 (4 / 5)]).touch
      = some ⟨0, 0, 4 / 5⟩ := by
  refine ⟨fun events => foldl_trackerInvariant events initState rfl, rfl, ?_, ?_, ?_, rfl⟩
  · rw [mkTile_x, mkTile_width, mkTile_y, mkTile_height]
    norm_num
  · exact findTileIndex_500_300
  · exact findTileIndex_0_0

/-- Counterexample for C3: the last tile (index 20, numbered App 21)
carries no badge, and the tile width is below 126, refuting the badge
attribution to tile 20 and the approximate width 126.86 of the claim. -/
theorem grid_scenario_cex :
    (createTiles.get? 20).map Tile.badge = some none ∧ tileWidth < 126 := by
  refine ⟨rfl, ?_⟩
  rw [tileWidth_eq]
  norm_num

/-- Claim C3 (amended): the grid uses tile size (1024 - 2·64 - 6·16)/7 =
800/7, approximately 114.29, by 110 tall; tile 0 sits at (64, 280), tile 6
is the last column of row 0 at x = 5920/7, tile 7 opens row 1, tile 20 is
the last tile overall and carries no badge, and tile 19 (20th, 1-based)
carries badge NEW. -/
theorem grid_scenario :
    createTiles.length = 21 ∧
    tileWidth = 800 / 7 ∧ 114 < tileWidth ∧ tileWidth < 115 ∧ tileHeight = 110 ∧
    createTiles.get? 0 = some (mkTile 0 0) ∧ (mkTile 0 0).x = 64 ∧ (mkTile 0 0).y = 280 ∧
    createTiles.get? 6 = some (mkTile 0 6) ∧ (mkTile 0 6).x = 5920 / 7 ∧
    (mkTile 0 6).y = 280 ∧
    createTiles.get? 7 = some (mkTile 1 0) ∧ (mkTile 1 0).y = 406 ∧
    (createTiles.get? 20).map Tile.label = some "App 21" ∧
    (createTiles.get? 20).map Tile.badge = some none ∧
    (createTiles.get? 19).map Tile.badge = some (some "NEW") := by
  refine ⟨rfl, tileWidth_eq, ?_, ?_, rfl, rfl, ?_, ?_, rfl, ?_, ?_, rfl, ?_, rfl, rfl, rfl⟩
  · rw [tileWidth_eq]; norm_num
  · rw [tileWidth_eq]; norm_num
  · rw [mkTile_x]; norm_num
  · rw [mkTile_y]; norm_num
  · rw [mkTile_x]; norm_num
  · rw [mkTile_y]; norm_num
  · rw [mkTile_y]; norm_num

/-- Claim C4: the 21 startup tiles have pairwise non-overlapping closed
rectangles (no point lies in two of them), and every rectangle lies
inside the 1024 by 1024 canvas. -/
theorem tiles_disjoint_in_canvas :
    createTiles.length = 21 ∧
    (∀ t ∈ createTiles,
      0 ≤ t.x ∧ t.x + t.width ≤ 1024 ∧ 0 ≤ t.y ∧ t.y + t.height ≤ 1024) ∧
    (∀ i j (hi : i < createTiles.length) (hj : j < createTiles.length), i ≠ j →
      ∀ x y : ℚ, ¬(tileContains (createTiles.get ⟨i, hi⟩) x y = true ∧
                    tileContains (createTiles.get ⟨j, hj⟩) x y = true)) := by
  refine ⟨rfl, ?_, ?_⟩
  · intro t ht
    obtain ⟨r, hr, c, hc, rfl⟩ := (mem_createTiles_iff t).mp ht
    exact mkTile_in_canvas hr hc
  · intro i j hi hj hne x y ⟨h1, h2⟩
    rw [createTiles_get i hi] at h1
    rw [createTiles_get j hj] at h2
    exact mkTile_no_common_point (by omega) x y h1 h2

/-- Witness for C4: tile 0 lies in the canvas, and no point is shared by
tiles 0 and 1. -/
theorem tiles_disjoint_in_canvas_witness :
    (0 ≤ (mkTile 0 0).x ∧ (mkTile 0 0).x + (mkTile 0 0).width ≤ 1024 ∧
      0 ≤ (mkTile 0 0).y ∧ (mkTile 0 0).y + (mkTile 0 0).height ≤ 1024) ∧
    ¬(tileContains (createTiles.get ⟨0, by rw [createTiles_length]; omega⟩) 100 300 = true ∧
      tileContains (createTiles.get ⟨1, by rw [createTiles_length]; omega⟩) 100 300 = true) :=
  ⟨tiles_disjoint_in_canvas.2.1 (mkTile 0 0)
      ((mem_createTiles_iff (mkTile 0 0)).mpr ⟨0, by omega, 0, by omega, rfl⟩),
    tiles_disjoint_in_canvas.2.2 0 1 _ _ (by omega) 100 300⟩

/-- Claim C5: a startup tile carries a badge exactly when its 1-based
creation index is a multiple of 5, and that badge is NEW; all other tiles
carry none. -/
theorem badge_every_fifth :
    createTiles.length = 21 ∧
    ∀ i (h : i < createTiles.length),
      (createTiles.get ⟨i, h⟩).badge = if (i + 1) % 5 = 0 then some "NEW" else none := by
  refine ⟨rfl, ?_⟩
  intro i h
  rw [createTiles_get i h, mkTile_badge]
  have hmod : i / 7 * columns + i % 7 + 1 = i + 1 := by
    simp only [columns]
    omega
  rw [hmod]

/-- Witness for C5: tile index 4 (5th, 1-based) carries badge NEW. -/
theorem badge_every_fifth_witness :
    (createTiles.get ⟨4, by rw [createTiles_length]; omega⟩).badge = some "NEW" :=
  (badge_every_fifth.2 4 (by rw [createTiles_length]; omega)).trans rfl

/-- Claim C6: handleTouchEnd unconditionally clears both the stored
sample and activeTileIndex from any prior state, leaving every other
field unchanged (the Idle state). -/
theorem pointer_up_resets :
    ∀ s : EngineState,
      (handleTouchEnd s).touch = none ∧ (handleTouchEnd s).activeTileIndex = none ∧
      (handleTouchEnd s).tiles = s.tiles ∧
      (handleTouchEnd s).displayWidth = s.displayWidth ∧
      (handleTouchEnd s).displayHeight = s.displayHeight :=
  fun _ => ⟨rfl, rfl, rfl, rfl, rfl⟩

/-- Claim C7: the App move handler given a touch event with zero active
touches returns the state unchanged; the only engine event that clears
the sample is the up event (wired to end and leave); and the no-op is
distinct from handleTouchEnd on a tracking state. -/
theorem empty_move_noop :
    (∀ (rl rt rw rh : ℚ) (s : EngineState),
      appHandleTouchMove rl rt rw rh (HostPointerEvent.touchEvt []) s = s) ∧
    (∀ (s : EngineState) (e : PointerEvent), (step s e).touch = none ↔ e = PointerEvent.up) ∧
    appHandleTouchMove 0 0 1024 1024 (HostPointerEvent.touchEvt [])
        (handleTouchStart initState 500 300 1) ≠
      handleTouchEnd (handleTouchStart initState 500 300 1) := by
  refine ⟨fun _ _ _ _ _ => rfl, ?_, ?_⟩
  · intro s e
    cases e <;> simp [step, handleTouchStart, handleTouchMove, handleTouchEnd]
  · intro h
    have := congrArg EngineState.touch h
    simp [appHandleTouchMove, handleTouchStart, handleTouchEnd] at this

/-- Witness for C7: the empty-touch move leaves the initial state intact,
while the up event alone yields an empty sample. -/
theorem empty_move_noop_witness :
    appHandleTouchMove 1 2 100 200 (HostPointerEvent.touchEvt []) initState = initState ∧
    (step initState PointerEvent.up).touch = none :=
  ⟨empty_move_noop.1 1 2 100 200 initState,
    (empty_move_noop.2.1 initState PointerEvent.up).mpr rfl⟩

/-- Claim C8: construction fails exactly when no 2D context is available,
with the descriptive error message of the source; with a context it
always succeeds, producing the initial engine. All other modelled
operations are total functions and return a value on every input. -/
theorem construction_only_failure :
    constructEngine none = Except.error "Canvas context unavailable" ∧
    (∀ c : CanvasContext, constructEngine (some c) = Except.ok ⟨c, initState⟩) ∧
    (∀ octx : Option CanvasContext,
      (∃ msg, constructEngine octx = Except.error msg) ↔ octx = none) := by
  refine ⟨rfl, fun _ => rfl, ?_⟩
  intro octx
  cases octx with
  | none => simp [constructEngine]
  | some c => simp [constructEngine]

/-- Witness for C8: the absent context produces an error. -/
theorem construction_only_failure_witness :
    ∃ msg, constructEngine none = Except.error msg :=
  (construction_only_failure.2.2 none).mpr rfl

/-- Claim C9: the render output is a deterministic function of
(activeTileIndex, touch sample, tile set) alone — two states agreeing on
those three emit identical command sequences — and the radial pointer
glow appears in the output exactly when a sample is stored. -/
theorem render_functional_glow :
    (∀ s1 s2 : EngineState, s1.activeTileIndex = s2.activeTileIndex →
      s1.touch = s2.touch → s1.tiles = s2.tiles →
      renderCommands s1 = renderCommands s2) ∧
    (∀ s : EngineState, (renderCommands s).any isRadialGradientCmd = s.touch.isSome) := by
  constructor
  · intro s1 s2 h1 h2 h3
    rw [renderCommands, renderCommands, h1, h2, h3]
  · intro s
    have hbg : drawBackgroundCmds.any isRadialGradientCmd = false := rfl
    have hhd : drawHeaderCmds.any isRadialGradientCmd = false := rfl
    have hsc : drawStatusCardsCmds.any isRadialGradientCmd = false := rfl
    have hkb : drawKeyboardCmds.any isRadialGradientCmd = false := rfl
    have hgid : isRadialGradientCmd (DrawCmd.getImageData 0 0 canvasWidth canvasHeight)
        = false := rfl
    have ht := drawTiles_no_radial s.activeTileIndex s.tiles
    cases htt : s.touch with
    | none =>
        have hglow : (drawTouchHighlightCmds none).any isRadialGradientCmd = false := rfl
        simp [renderCommands, List.any_append, hbg, hhd, hsc, hkb, ht, htt, hglow, hgid]
    | some t =>
        have hglow : (drawTouchHighlightCmds (some t)).any isRadialGradientCmd = true := rfl
        simp [renderCommands, List.any_append, hbg, hhd, hsc, hkb, ht, htt, hglow, hgid]

/-- Witness for C9: the display dimensions do not influence the output;
two states differing only there render identically. -/
theorem render_functional_glow_witness :
    renderCommands initState =
      renderCommands { initState with displayWidth := 500, displayHeight := 400 } :=
  render_functional_glow.1 _ _ rfl rfl rfl

/-- Claim C10: render leaves the engine state untouched: the sample,
activeTileIndex, tile set and display dimensions after a render call are
exactly those before it, and only the command list is produced. -/
theorem render_no_state_mutation :
    ∀ s : EngineState,
      (renderStep s).1 = s ∧ (renderStep s).1.touch = s.touch ∧
      (renderStep s).1.activeTileIndex = s.activeTileIndex ∧
      (renderStep s).1.tiles = s.tiles ∧
      (renderStep s).1.displayWidth = s.displayWidth ∧
      (renderStep s).1.displayHeight = s.displayHeight ∧
      (renderStep s).2 = renderCommands s :=
  fun _ => ⟨rfl, rfl, rfl, rfl, rfl, rfl, rfl⟩

end ModernUI
